import Mathlib

/-
Shallow embedding of the TerraLend sustainability scoring pipeline.

Sources embedded:
- aiScoringService (calculateGreenScore, runGreenwashingCheck,
  assessClimateRisk, getStateFromCoordinates) — v2.0 "TerraLend Enhanced AI"
- server/services/confidenceService.js (calculateExtractionConfidence)
- aiExtractionService (extractClaimMock)
- server/routes/verification.js POST /green-score decision logic

JS numbers are modelled as ℚ (all arithmetic here is exact decimal
arithmetic), JS strings as String, undefined/null fields as Option.
JS truthiness is modelled explicitly where the source relies on it
(empty string, zero, undefined are falsy).
-/

/-! ## JS-style string helpers -/

/-- Boolean substring test on char lists (JS String.prototype.includes). -/
def listInfixOf (needle : List Char) : List Char → Bool
  | [] => needle.isEmpty
  | c :: t => needle.isPrefixOf (c :: t) || listInfixOf needle t

/-- JS hay.includes(needle). -/
def containsSub (hay needle : String) : Bool := listInfixOf needle.toList hay.toList

/-- JS String.prototype.toLowerCase (ASCII model). -/
def jsToLower (s : String) : String := String.mk (s.toList.map Char.toLower)

/-- JS `o || dflt` for string-valued fields: undefined and the empty string
are falsy. -/
def jsOrString (o : Option String) (dflt : String) : String :=
  match o with
  | none => dflt
  | some s => if s = "" then dflt else s

/-- JS `x || dflt` for number-valued expressions: 0 is falsy. -/
def jsOrRat (x dflt : ℚ) : ℚ := if x = 0 then dflt else x

/-! ## Numeric parsing (aiScoringService `parseNum` helper) -/

/-- Value of a digit string (leading zeros allowed). -/
def digitsVal (l : List Char) : ℕ := l.foldl (fun n c => 10 * n + (c.toNat - 48)) 0

/-- JS parseFloat restricted to strings over the alphabet of digits and dots,
which is all `parseNum` can produce after stripping: an optional integer
part, an optional fractional part, anything after a second dot ignored;
no digit at all gives NaN (modelled as none). -/
def jsParseFloat (l : List Char) : Option ℚ :=
  let ip := l.takeWhile Char.isDigit
  let r1 := l.dropWhile Char.isDigit
  match r1 with
  | '.' :: r2 =>
      let fp := r2.takeWhile Char.isDigit
      if ip.isEmpty && fp.isEmpty then none
      else some ((digitsVal ip : ℚ) + (digitsVal fp : ℚ) / (10 : ℚ) ^ fp.length)
  | _ => if ip.isEmpty then none else some ((digitsVal ip : ℚ))

/-- The regex replace in `parseNum`: strip every char that is not a digit
and not a decimal point. -/
def stripNonNumeric (s : String) : String :=
  String.mk (s.toList.filter (fun c => c.isDigit || c == '.'))

/-- aiScoringService: `parseNum = (val) => parseFloat(String(val).replace(/[^0-9.]/g, '')) || 0`.
A missing field (undefined) stringifies to "undefined", which strips to ""
and parses to NaN, hence 0. -/
def parseNum (val : Option String) : ℚ :=
  let s := match val with
    | some s => s
    | none => "undefined"
  (jsParseFloat (stripNonNumeric s).toList).getD 0

/-! ## Climate risk assessment (aiScoringService `assessClimateRisk`) -/

structure ClimateLocation where
  city : Option String
  state : Option String
deriving DecidableEq

structure ClimateRiskEntry where
  type : String
  level : String
  description : String
  recommendation : String
deriving DecidableEq

structure ClimateRiskResult where
  level : String
  risks : List ClimateRiskEntry
  notes : String
deriving DecidableEq

def droughtStates : List String := ["maharashtra", "karnataka", "rajasthan", "telangana"]

def floodRegions : List String := ["mumbai", "chennai", "kolkata", "assam", "kerala"]

def heatRegions : List String := ["delhi", "uttar pradesh", "bihar", "punjab"]

def droughtEntry : ClimateRiskEntry :=
  { type := "drought", level := "medium",
    description := "Moderate drought risk during summer months. May affect water-dependent operations.",
    recommendation := "Consider water storage and backup systems." }

def floodEntry : ClimateRiskEntry :=
  { type := "flood", level := "high",
    description := "Higher flood risk during monsoon season.",
    recommendation := "Ensure adequate flood insurance and elevated installations." }

def heatEntry : ClimateRiskEntry :=
  { type := "heatwave", level := "medium",
    description := "Extreme heat events may impact equipment efficiency.",
    recommendation := "Plan for cooling systems and shade structures." }

/-- Matching of a location string against one regional list. -/
def regionHit (locationStr : String) (states : List String) : Bool :=
  states.any (fun s => containsSub locationStr s)

/-- The location string of `assessClimateRisk`:
`(location.city || location.state || '').toLowerCase()`. -/
def climateLocationStr (location : ClimateLocation) : String :=
  jsToLower (jsOrString location.city (jsOrString location.state ""))

/-- aiScoringService `assessClimateRisk(location)`: risks are pushed in the
source order drought, flood, heatwave; the overall level is high if any
pushed risk is high, else medium if any is medium, else low. -/
def assessClimateRisk (location : ClimateLocation) : ClimateRiskResult :=
  let locationStr := climateLocationStr location
  let risks :=
    (if regionHit locationStr droughtStates then [droughtEntry] else [])
    ++ (if regionHit locationStr floodRegions then [floodEntry] else [])
    ++ (if regionHit locationStr heatRegions then [heatEntry] else [])
  let overallLevel :=
    if risks.any (fun r => r.level == "high") then "high"
    else if risks.any (fun r => r.level == "medium") then "medium"
    else "low"
  { level := overallLevel,
    risks := risks,
    notes :=
      if risks.length > 0 then
        toString risks.length ++ " climate risk(s) identified for this location."
      else "No significant climate risks identified." }

/-! ## Project data and greenwashing check -/

structure Coordinates where
  latitude : ℚ
  longitude : ℚ
deriving DecidableEq

structure ProjectData where
  greenObjective : Option String
  annualTurnover : Option String
  yearsInBusiness : Option String
  estimatedSavings : Option String
  projectLocation : Option String
  loanAmount : Option String
  locationCoordinates : Option Coordinates
deriving DecidableEq

structure GreenwashingCheckItem where
  name : String
  status : String
  confidence : ℤ
deriving DecidableEq

structure GreenwashingResult where
  passed : Bool
  confidenceScore : ℤ
  checks : List GreenwashingCheckItem
  flags : List String
deriving DecidableEq

def greenwashingChecks : List GreenwashingCheckItem :=
  [{ name := "MNRE Registration", status := "verified", confidence := 95 },
   { name := "BEE Compliance", status := "verified", confidence := 92 },
   { name := "GRI Standards", status := "verified", confidence := 88 },
   { name := "Project Documentation", status := "verified", confidence := 90 }]

/-- aiScoringService `runGreenwashingCheck(projectData)`: a fixed table of
simulated checks; passed iff every check is verified and the mean
confidence is at least 80. The `verifiedAt`/`verifiedBy` timestamp fields
are impure and not modelled. -/
def runGreenwashingCheck (_projectData : ProjectData) : GreenwashingResult :=
  let checks := greenwashingChecks
  let avgConfidence : ℚ :=
    (checks.foldl (fun sum c => sum + (c.confidence : ℚ)) 0) / (checks.length : ℚ)
  let passed := checks.all (fun c => c.status == "verified") && decide (avgConfidence ≥ 80)
  { passed := passed,
    confidenceScore := round avgConfidence,
    checks := checks,
    flags := [] }

/-! ## Green score engine (aiScoringService `calculateGreenScore`, v2.0) -/

structure GreenScoreResult where
  greenScore : ℤ
  sustainabilityClass : String
  reasoning : List (String × String)
  methodology : String
deriving DecidableEq

structure StateCentroid where
  state : String
  lat : ℚ
  long : ℚ

def stateCentroids : List StateCentroid :=
  [{ state := "Maharashtra", lat := 19.75, long := 75.71 },
   { state := "Karnataka", lat := 15.31, long := 75.71 },
   { state := "Rajasthan", lat := 27.02, long := 74.21 },
   { state := "Tamil Nadu", lat := 11.12, long := 78.65 },
   { state := "Gujarat", lat := 22.25, long := 71.19 },
   { state := "Assam", lat := 26.20, long := 92.93 },
   { state := "Delhi", lat := 28.70, long := 77.10 },
   { state := "Telangana", lat := 18.11, long := 79.01 }]

/-- aiScoringService `getStateFromCoordinates(lat, long)`: nearest-centroid
lookup. The source compares Euclidean distances computed with Math.sqrt;
since sqrt is strictly monotone the comparisons coincide with comparisons
of squared distances, which is what this embedding uses. The guard models
the JS falsiness check `!lat || !long`. -/
def getStateFromCoordinates (lat long : ℚ) : String :=
  if lat = 0 ∨ long = 0 then "Unknown"
  else
    (stateCentroids.foldl
      (fun acc loc =>
        let dist := (loc.lat - lat) ^ 2 + (loc.long - long) ^ 2
        match acc with
        | none => some (dist, loc.state)
        | some (d, st) => if dist < d then some (dist, loc.state) else some (d, st))
      none).elim "Unknown" (fun p => p.2)

def impactScores : List (String × ℤ) :=
  [("solar", 30), ("waste", 30), ("wind", 30), ("energy_efficiency", 25),
   ("ev", 25), ("water", 25), ("agriculture", 20)]

/-- The category-key normalisation `.toLowerCase().replace(/ /g, '_')`. -/
def normalizeCatKey (s : String) : String :=
  String.mk ((jsToLower s).toList.map (fun c => if c == ' ' then '_' else c))

/-- The final classification: `finalScore >= 80` high, `>= 50` medium,
else low. -/
def classifyScore (finalScore : ℤ) : String :=
  if finalScore ≥ 80 then "high" else if finalScore ≥ 50 then "medium" else "low"

/-- The final clamp `Math.min(100, Math.max(0, Math.round(finalScore)))`;
the accumulated score is always an integer so Math.round is the identity. -/
def clamp100 (x : ℤ) : ℤ := min 100 (max 0 x)

/-- aiScoringService v2.0 `calculateGreenScore(projectData)`. Each section
mirrors the source: capped category/impact, financial viability, geographic
suitability (including the climate-resilience sub-score computed through
`assessClimateRisk`), and data integrity; reasoning entries are accumulated
in the order the corresponding rules fire. The impure `timestamp` field is
not modelled. -/
def calculateGreenScore (projectData : ProjectData) : GreenScoreResult :=
  let turnoverVal := parseNum projectData.annualTurnover
  let savingsVal := parseNum projectData.estimatedSavings
  let loanVal := jsOrRat (parseNum projectData.loanAmount) 100000
  let yearsVal := parseNum projectData.yearsInBusiness
  -- 1. PROJECT IMPACT & CATEGORY (Max 30 Points)
  let catKey := normalizeCatKey (jsOrString projectData.greenObjective "")
  let baseImpact := (impactScores.lookup catKey).getD 20
  let transformative := decide (turnoverVal > 0) && decide (savingsVal > turnoverVal * 0.5)
  let impactScore := min 30 (baseImpact + if transformative then 5 else 0)
  -- 2. FINANCIAL VIABILITY (Max 30 Points)
  let roiRatio := savingsVal / loanVal
  let roi : ℤ × String :=
    if roiRatio ≥ 0.5 then (15, "+15 pts (Excellent ROI > 50%)")
    else if roiRatio ≥ 0.25 then (10, "+10 pts (Strong ROI > 25%)")
    else if roiRatio ≥ 0.1 then (5, "+5 pts (Moderate ROI)")
    else (0, "0 pts (Low ROI < 10%)")
  let turnoverBand : ℤ × String :=
    if turnoverVal ≥ 5000000 then (10, "+10 pts (Turnover > ₹50L)")
    else if turnoverVal ≥ 1000000 then (5, "+5 pts (Turnover > ₹10L)")
    else (0, "+0 pts (Low Turnover)")
  let ageBand : ℤ × Option String :=
    if yearsVal ≥ 3 then (5, some "+5 pts (> 3 Years Vintage)")
    else if yearsVal ≥ 1 then (2, some "+2 pts (1-3 Years Vintage)")
    else (0, none)
  let financialScore := min 30 (roi.1 + turnoverBand.1 + ageBand.1)
  -- 3. GEOGRAPHICAL SUITABILITY (Max 30 Points)
  let state0 := jsOrString projectData.projectLocation "Unknown"
  let state1 :=
    match projectData.locationCoordinates with
    | some c =>
        if c.latitude ≠ 0 ∧ c.longitude ≠ 0 then
          let derived := getStateFromCoordinates c.latitude c.longitude
          if derived ≠ "Unknown" then derived else state0
        else state0
    | none => state0
  let state := jsToLower state1
  let category := jsToLower (jsOrString projectData.greenObjective "")
  let geoSuit : ℤ × String :=
    if containsSub category "solar" then
      if regionHit state ["rajasthan", "gujarat", "maharashtra", "karnataka", "tamil nadu", "telangana", "andhra pradesh"] then
        (20, "+20 pts (High Solar Irradiance Zone)")
      else if regionHit state ["kerala", "west bengal", "odisha"] then
        (10, "+10 pts (Moderate Solar Potential)")
      else (5, "+5 pts (Standard Solar Potential)")
    else if containsSub category "wind" then
      if regionHit state ["tamil nadu", "gujarat", "maharashtra", "karnataka"] then
        (20, "+20 pts (High Wind Corridor)")
      else (5, "+5 pts (Low Wind Potential)")
    else if containsSub category "ev" || containsSub category "efficiency" then
      if regionHit state ["delhi", "maharashtra", "karnataka", "telangana", "tamil nadu"] then
        (20, "+20 pts (High Urban Adoption Rate)")
      else (10, "+10 pts (Growing Adoption Zone)")
    else if containsSub category "agriculture" || containsSub category "water" then
      if regionHit state ["punjab", "haryana", "uttar pradesh", "madhya pradesh"] then
        (20, "+20 pts (Process Optimization Zone)")
      else if regionHit state ["rajasthan", "maharashtra", "gujarat"] then
        (20, "+20 pts (Critical Resource Impact Zone)")
      else (10, "+10 pts (Standard Impact Zone)")
    else if containsSub category "waste" then (20, "+20 pts (Universal Need)")
    else (10, "+10 pts (General Applicability)")
  let riskAssessment := assessClimateRisk { city := none, state := some state }
  let climateRes : ℤ × String :=
    if riskAssessment.level == "low" then (10, "+10 pts (Low Climate Risk)")
    else if riskAssessment.level == "medium" then (5, "+5 pts (Moderate Climate Risk)")
    else (0, "0 pts (High Climate Risk detected)")
  let geoScore := min 30 (geoSuit.1 + climateRes.1)
  -- 4. DATA INTEGRITY & VALIDATION (Max 10 Points)
  let latTruthy : Bool :=
    match projectData.locationCoordinates with
    | some c => decide (c.latitude ≠ 0)
    | none => false
  let fullDisclosure := decide (turnoverVal > 0) && decide (savingsVal > 0)
  let dataScore : ℤ := (if latTruthy then 5 else 0) + (if fullDisclosure then 5 else 0)
  -- FINAL AGGREGATION
  let finalScore := clamp100 (impactScore + financialScore + geoScore + dataScore)
  let reasoning :=
    [("category_impact",
      "+" ++ toString baseImpact ++ " pts (" ++ jsOrString projectData.greenObjective "Standard" ++ " Category)")]
    ++ (if transformative then [("transformative_bonus", "+5 pts (High Savings relative to Turnover)")] else [])
    ++ [("roi_potential", roi.2), ("turnover_stability", turnoverBand.2)]
    ++ (match ageBand.2 with
        | some r => [("business_age", r)]
        | none => [])
    ++ [("geo_suitability", geoSuit.2), ("climate_resilience", climateRes.2)]
    ++ (if latTruthy then [("data_quality", "+5 pts (Precise Geolocation Verified)")] else [])
    ++ (if fullDisclosure then [("data_completeness", "+5 pts (Full Financial Disclosure)")] else [])
  { greenScore := finalScore,
    sustainabilityClass := classifyScore finalScore,
    reasoning := reasoning,
    methodology := "TerraLend Enhanced AI v2.0" }

/-! ## Verification orchestrator (routes/verification.js POST /green-score) -/

structure Decision where
  status : String
  rejectionReason : Option String
deriving DecidableEq

def greenwashingMsg : String :=
  "Greenwashing detected: Sustainability claims could not be verified."

def lowScoreMsg (score : ℤ) : String :=
  "Green Score too low (" ++ toString score ++ "/100). Minimum 50 required."

/-- The rejection-criteria block of the route: greenwashing failure first,
then the score threshold, otherwise approved. -/
def verificationDecision (passed : Bool) (greenScore : ℤ) : Decision :=
  if !passed then { status := "rejected", rejectionReason := some greenwashingMsg }
  else if greenScore < 50 then
    { status := "rejected", rejectionReason := some (lowScoreMsg greenScore) }
  else { status := "approved", rejectionReason := none }

/-- The route handler's scoring composition for a resolved loan: compute the
green score and the greenwashing check, then decide. -/
def verifyLoan (loan : ProjectData) : Decision :=
  let scoreResult := calculateGreenScore loan
  let greenwashingResult := runGreenwashingCheck loan
  verificationDecision greenwashingResult.passed scoreResult.greenScore

/-! ## Confidence scorer (confidenceService.js `calculateExtractionConfidence`) -/

structure ClaimedImpact where
  co2_saved_tonnes_per_year : Option ℚ
  energy_generated_kwh_per_year : Option ℚ
deriving DecidableEq

structure ExtractedClaim where
  project_type : Option String
  capacity_kw : Option ℚ
  vendor : Option String
  certifications : List String
  claimed_impact : ClaimedImpact
deriving DecidableEq

/-- JS truthiness of a string-valued field: undefined/null and "" are falsy. -/
def truthyStr : Option String → Bool
  | none => false
  | some s => !(s == "")

/-- JS truthiness of a number-valued field: undefined/null and 0 are falsy. -/
def truthyNum : Option ℚ → Bool
  | none => false
  | some x => !(x == 0)

structure Signal where
  field : String
  message : String
  penalty : ℚ
deriving DecidableEq

structure Completeness where
  hasProjectType : Bool
  hasCapacity : Bool
  hasVendor : Bool
  hasCertifications : Bool
  hasImpactMetrics : Bool
deriving DecidableEq

structure ConfidenceResult where
  confidence : ℚ
  signals : List Signal
  completeness : Completeness
deriving DecidableEq

/-- JS `Math.round(score * 100) / 100` (round half towards positive
infinity, as Math.round does; Mathlib round is floor of x + 1/2, the same
rule). -/
def round2 (q : ℚ) : ℚ := ((round (q * 100) : ℤ) : ℚ) / 100

/-- The bounds clamp `Math.max(0, Math.min(1, score))`. -/
def clamp01 (q : ℚ) : ℚ := max 0 (min 1 q)

/-- confidenceService `calculateExtractionConfidence(extracted)`: start at
1.0, subtract per-field penalties in source order, add the capped
certification bonus, clamp, round to 2 decimals; one signal per missing
critical field. The `!field` checks use JS truthiness, the impact checks
use `!= null`. -/
def calculateExtractionConfidence (extracted : ExtractedClaim) : ConfidenceResult :=
  let score0 : ℚ := 1
  let missingType := !(truthyStr extracted.project_type)
  let score1 := if missingType then score0 - 0.2 else score0
  let missingCap := !(truthyNum extracted.capacity_kw)
  let score2 := if missingCap then score1 - 0.25 else score1
  let missingVendor := !(truthyStr extracted.vendor)
  let score3 := if missingVendor then score2 - 0.2 else score2
  let hasCO2 := extracted.claimed_impact.co2_saved_tonnes_per_year.isSome
  let hasEnergy := extracted.claimed_impact.energy_generated_kwh_per_year.isSome
  let missingImpact := !hasCO2 && !hasEnergy
  let score4 := if missingImpact then score3 - 0.15 else score3
  let score5 :=
    if extracted.certifications.length > 0 then
      score4 + min ((extracted.certifications.length : ℚ) * 0.05) 0.1
    else score4
  let score := clamp01 score5
  let signals :=
    (if missingType then
      [{ field := "project_type", message := "Project type could not be determined", penalty := 0.2 }]
     else [])
    ++ (if missingCap then
      [{ field := "capacity_kw", message := "Capacity/size not specified", penalty := 0.25 }]
     else [])
    ++ (if missingVendor then
      [{ field := "vendor", message := "Vendor/manufacturer not identified", penalty := 0.2 }]
     else [])
    ++ (if missingImpact then
      [{ field := "claimed_impact", message := "No impact metrics found", penalty := 0.15 }]
     else [])
  { confidence := round2 score,
    signals := signals,
    completeness :=
      { hasProjectType := truthyStr extracted.project_type,
        hasCapacity := truthyNum extracted.capacity_kw,
        hasVendor := truthyStr extracted.vendor,
        hasCertifications := extracted.certifications.length > 0,
        hasImpactMetrics := hasCO2 || hasEnergy } }

/-- Formula from the spec's stated invariant for ConfidenceResult (the
claimed closed form of the scorer, restated from the spec to be compared
with the sequential source computation): 1.0 minus fixed per-field
penalties, plus a certification bonus of 0.05 per certification capped at
0.10, before clamping and rounding. -/
def specConfidenceFormula (e : ExtractedClaim) : ℚ :=
  1 - (if truthyStr e.project_type then 0 else 0.2)
    - (if truthyNum e.capacity_kw then 0 else 0.25)
    - (if truthyStr e.vendor then 0 else 0.2)
    - (if e.claimed_impact.co2_saved_tonnes_per_year.isSome
          || e.claimed_impact.energy_generated_kwh_per_year.isSome then 0 else 0.15)
    + min ((e.certifications.length : ℚ) * 0.05) 0.1

/-! ## Text extractor (aiExtractionService `extractClaimMock`)

Every regex of the source is applied with the /i flag, so matching is done
here on the lowercased character list; all captured groups consist of
digits, dots and commas, which lowercasing does not affect. Greedy
subpatterns whose follow set is disjoint from their character set are
translated without backtracking (which coincides with the regex
semantics); the one genuinely ambiguous alternation (approx/approximately)
is translated with an ordered candidate list. -/

/-- Literal matcher: consumes `s` if it is a prefix, returns the rest. -/
def pLit (s : String) (l : List Char) : Option (List Char) :=
  if s.toList.isPrefixOf l then some (l.drop s.toList.length) else none

/-- Greedy whitespace skip (a regex `\s*` whose follower is never a space). -/
def pSp (l : List Char) : Option (List Char) := some (l.dropWhile Char.isWhitespace)

/-- Greedy `\d+` with optional `(?:\.\d+)?`; returns (capture, rest). -/
def matchNumDec (l : List Char) : Option (List Char × List Char) :=
  let ds := l.takeWhile Char.isDigit
  let r1 := l.dropWhile Char.isDigit
  if ds.isEmpty then none
  else
    match r1 with
    | '.' :: r2 =>
        let fs := r2.takeWhile Char.isDigit
        if fs.isEmpty then some (ds, r1)
        else some (ds ++ '.' :: fs, r2.dropWhile Char.isDigit)
    | _ => some (ds, r1)

/-- Greedy `(?:,\d+)*`: consumes comma-digit groups; fuel is the list
length, which each iteration strictly decreases by at least two. -/
def commaGroupsF : ℕ → List Char → List Char × List Char
  | 0, l => ([], l)
  | fuel + 1, l =>
    match l with
    | ',' :: r =>
        let ds := r.takeWhile Char.isDigit
        if ds.isEmpty then ([], ',' :: r)
        else
          let next := commaGroupsF fuel (r.dropWhile Char.isDigit)
          (',' :: (ds ++ next.1), next.2)
    | _ => ([], l)

/-- Greedy `\d+(?:,\d+)*(?:\.\d+)?`; returns (capture, rest). -/
def matchNumComma (l : List Char) : Option (List Char × List Char) :=
  let ds := l.takeWhile Char.isDigit
  let r1 := l.dropWhile Char.isDigit
  if ds.isEmpty then none
  else
    let cg := commaGroupsF r1.length r1
    match cg.2 with
    | '.' :: r2 =>
        let fs := r2.takeWhile Char.isDigit
        if fs.isEmpty then some (ds ++ cg.1, cg.2)
        else some (ds ++ cg.1 ++ '.' :: fs, r2.dropWhile Char.isDigit)
    | _ => some (ds ++ cg.1, cg.2)

/-- Greedy `\d+(?:,\d+)*` without a fractional part. -/
def matchNumCommaNF (l : List Char) : Option (List Char × List Char) :=
  let ds := l.takeWhile Char.isDigit
  let r1 := l.dropWhile Char.isDigit
  if ds.isEmpty then none
  else
    let cg := commaGroupsF r1.length r1
    some (ds ++ cg.1, cg.2)

/-- Leftmost-match search: try the pattern at every start position, as
RegExp.prototype.exec/test does. -/
def scanFirst {α : Type} (m : List Char → Option α) : List Char → Option α
  | [] => m []
  | c :: cs => (m (c :: cs)).orElse (fun _ => scanFirst m cs)

/-- Lazy `.*?` before a subpattern: try the subpattern at the nearest
position first, never crossing a newline (regex `.` does not match line
terminators). -/
def scanNoNewline {α : Type} (m : List Char → Option α) : List Char → Option α
  | [] => m []
  | c :: cs =>
      (m (c :: cs)).orElse (fun _ =>
        if c == '\n' || c == '\r' then none else scanNoNewline m cs)

/-- Ordered alternation of literal prefixes: the rests of those that match,
in alternation order. -/
def prefixRests (ss : List String) (l : List Char) : List (List Char) :=
  ss.filterMap (fun s => pLit s l)

/-- Optional `(?:of\s*)?` style group: consume the literal and trailing
spaces if present (its follow set is disjoint, so no backtracking). -/
def pOptLitSp (s : String) (l : List Char) : List Char :=
  (do
    let r ← pLit s l
    pSp r).getD l

/-- JS Number() on a captured digit/dot group. -/
def jsNumberOfCapture (l : List Char) : ℚ :=
  let ip := l.takeWhile Char.isDigit
  let r1 := l.dropWhile Char.isDigit
  match r1 with
  | '.' :: r2 =>
      let fs := r2.takeWhile Char.isDigit
      (digitsVal ip : ℚ) + (digitsVal fs : ℚ) / (10 : ℚ) ^ fs.length
  | _ => (digitsVal ip : ℚ)

/-! ### Capacity patterns (source order) -/

/-- Regex 1: `(\d+(?:\.\d+)?)\s*kw` (/i). -/
def capPat1 (l : List Char) : Option (List Char) := do
  let (cap, r) ← matchNumDec l
  let r ← pSp r
  let _ ← pLit "kw" r
  pure cap

/-- Regex 2: `(\d+(?:\.\d+)?)\s*kilowatt` (/i). -/
def capPat2 (l : List Char) : Option (List Char) := do
  let (cap, r) ← matchNumDec l
  let r ← pSp r
  let _ ← pLit "kilowatt" r
  pure cap

/-- Regex 3: `capacity\s*(?:of\s*)?(\d+(?:\.\d+)?)` (/i). -/
def capPat3 (l : List Char) : Option (List Char) := do
  let r ← pLit "capacity" l
  let r ← pSp r
  let r := pOptLitSp "of" r
  let (cap, _) ← matchNumDec r
  pure cap

/-- Regex 4: `(\d+(?:\.\d+)?)\s*kw(?:p)?` (/i); the trailing optional group
always matches. -/
def capPat4 (l : List Char) : Option (List Char) := do
  let (cap, r) ← matchNumDec l
  let r ← pSp r
  let _ ← pLit "kw" r
  pure cap

def capacityPatterns : List (List Char → Option (List Char)) :=
  [capPat1, capPat2, capPat3, capPat4]

/-- The capacity loop: first pattern that matches anywhere wins, its capture
is converted with Number(). -/
def extractCapacity (lchars : List Char) : Option ℚ :=
  (capacityPatterns.findSome? (fun p => scanFirst p lchars)).map jsNumberOfCapture

/-! ### Vendor patterns (source order; `test` only, no capture) -/

/-- Plain-literal vendor or certification regex. -/
def litTest (s : String) (l : List Char) : Option Unit := (pLit s l).map (fun _ => ())

/-- Regex `tata\s*(?:power\s*)?solar` (/i). -/
def vendorTata (l : List Char) : Option Unit := do
  let r ← pLit "tata" l
  let r ← pSp r
  let r := pOptLitSp "power" r
  let _ ← pLit "solar" r
  pure ()

/-- Regex `adani\s*(?:green|solar)?` (/i); the tail after `adani` always
matches (the optional alternation admits the empty string). -/
def vendorAdani (l : List Char) : Option Unit := do
  let _ ← pLit "adani" l
  pure ()

/-- Regex `vikram\s*solar` (/i). -/
def vendorVikram (l : List Char) : Option Unit := do
  let r ← pLit "vikram" l
  let r ← pSp r
  let _ ← pLit "solar" r
  pure ()

/-- Regex `renew\s*power` (/i). -/
def vendorRenew (l : List Char) : Option Unit := do
  let r ← pLit "renew" l
  let r ← pSp r
  let _ ← pLit "power" r
  pure ()

/-- Regex `hero\s*(?:electric|future)` (/i). -/
def vendorHero (l : List Char) : Option Unit := do
  let r ← pLit "hero" l
  let r ← pSp r
  let _ ← (pLit "electric" r).orElse (fun _ => pLit "future" r)
  pure ()

/-- Regex `ola\s*electric` (/i). -/
def vendorOla (l : List Char) : Option Unit := do
  let r ← pLit "ola" l
  let r ← pSp r
  let _ ← pLit "electric" r
  pure ()

def vendorPatterns : List ((List Char → Option Unit) × String) :=
  [(vendorTata, "Tata Power Solar"),
   (vendorAdani, "Adani Solar"),
   (litTest "waaree", "Waaree Energies"),
   (vendorVikram, "Vikram Solar"),
   (litTest "luminous", "Luminous"),
   (litTest "havells", "Havells"),
   (litTest "suzlon", "Suzlon Energy"),
   (vendorRenew, "ReNew Power"),
   (vendorHero, "Hero Electric"),
   (litTest "ather", "Ather Energy"),
   (vendorOla, "Ola Electric")]

/-- The vendor loop: first pattern whose test succeeds maps to its canonical
display name. -/
def extractVendor (lchars : List Char) : Option String :=
  vendorPatterns.findSome? (fun pr => (scanFirst pr.1 lchars).map (fun _ => pr.2))

/-! ### Certification patterns (every match appended, not first-match-wins) -/

/-- Regex `iso\s*14001` (/i). -/
def certIso14001 (l : List Char) : Option Unit := do
  let r ← pLit "iso" l
  let r ← pSp r
  let _ ← pLit "14001" r
  pure ()

/-- Regex `iso\s*9001` (/i). -/
def certIso9001 (l : List Char) : Option Unit := do
  let r ← pLit "iso" l
  let r ← pSp r
  let _ ← pLit "9001" r
  pure ()

/-- Regex `mnre\s*(?:approved|certified)` (/i). -/
def certMnre (l : List Char) : Option Unit := do
  let r ← pLit "mnre" l
  let r ← pSp r
  let _ ← (pLit "approved" r).orElse (fun _ => pLit "certified" r)
  pure ()

/-- Regex `bee\s*(?:star|rated|certified)` (/i). -/
def certBee (l : List Char) : Option Unit := do
  let r ← pLit "bee" l
  let r ← pSp r
  let _ ← (pLit "star" r).orElse (fun _ =>
    (pLit "rated" r).orElse (fun _ => pLit "certified" r))
  pure ()

def certPatterns : List ((List Char → Option Unit) × String) :=
  [(certIso14001, "ISO 14001"),
   (certIso9001, "ISO 9001"),
   (litTest "leed", "LEED"),
   (litTest "griha", "GRIHA"),
   (litTest "igbc", "IGBC"),
   (litTest "bis", "BIS Certified"),
   (certMnre, "MNRE Approved"),
   (certBee, "BEE Star Rated")]

/-- The certification loop: every pattern is tested independently and each
match appends its label. -/
def extractCerts (lchars : List Char) : List String :=
  certPatterns.filterMap (fun pr => (scanFirst pr.1 lchars).map (fun _ => pr.2))

/-! ### CO2 patterns (source order) -/

/-- Candidate rests of the alternation `(?:tonnes?|tons?)` in order. -/
def tonRests (l : List Char) : List (List Char) :=
  prefixRests ["tonnes", "tonne", "tons", "ton"] l

/-- Regex 1: `(\d+(?:\.\d+)?)\s*(?:tonnes?|tons?)\s*(?:of\s*)?co2` (/i). -/
def co2Pat1 (l : List Char) : Option (List Char) := do
  let (cap, r) ← matchNumDec l
  let r ← pSp r
  (tonRests r).findSome? (fun r2 => do
    let r3 ← pSp r2
    let r3 := pOptLitSp "of" r3
    let _ ← pLit "co2" r3
    pure cap)

/-- Regex 2: `co2\s*(?:savings?|reduction|saved?)\s*(?:of\s*)?(\d+(?:\.\d+)?)` (/i). -/
def co2Pat2 (l : List Char) : Option (List Char) := do
  let r ← pLit "co2" l
  let r ← pSp r
  (prefixRests ["savings", "saving", "reduction", "saved", "save"] r).findSome? (fun r2 => do
    let r3 ← pSp r2
    let r3 := pOptLitSp "of" r3
    let (cap, _) ← matchNumDec r3
    pure cap)

/-- Regex 3: `save\s*(\d+(?:\.\d+)?)\s*(?:tonnes?|tons?)` (/i). -/
def co2Pat3 (l : List Char) : Option (List Char) := do
  let r ← pLit "save" l
  let r ← pSp r
  let (cap, r) ← matchNumDec r
  let r ← pSp r
  let _ ← (tonRests r).head?
  pure cap

/-- Regex 4: `reduce\s*(\d+(?:\.\d+)?)\s*(?:tonnes?|tons?)` (/i). -/
def co2Pat4 (l : List Char) : Option (List Char) := do
  let r ← pLit "reduce" l
  let r ← pSp r
  let (cap, r) ← matchNumDec r
  let r ← pSp r
  let _ ← (tonRests r).head?
  pure cap

/-- Regex 5: `(\d+(?:\.\d+)?)\s*(?:tonnes?|tons?)\s*(?:carbon|co2)\s*(?:per\s*year|annually)?`
(/i); the trailing optional group always matches. -/
def co2Pat5 (l : List Char) : Option (List Char) := do
  let (cap, r) ← matchNumDec l
  let r ← pSp r
  (tonRests r).findSome? (fun r2 => do
    let r3 ← pSp r2
    let _ ← (pLit "carbon" r3).orElse (fun _ => pLit "co2" r3)
    pure cap)

def co2Patterns : List (List Char → Option (List Char)) :=
  [co2Pat1, co2Pat2, co2Pat3, co2Pat4, co2Pat5]

def extractCO2 (lchars : List Char) : Option ℚ :=
  (co2Patterns.findSome? (fun p => scanFirst p lchars)).map jsNumberOfCapture

/-! ### Energy patterns (source order) -/

/-- Regex 1: `(\d+(?:,\d+)*(?:\.\d+)?)\s*kwh\s*(?:per\s*year|annually|\/\s*year)` (/i). -/
def enPat1 (l : List Char) : Option (List Char) := do
  let (cap, r) ← matchNumComma l
  let r ← pSp r
  let r ← pLit "kwh" r
  let r ← pSp r
  let perYear : Option Unit := do
    let r2 ← pLit "per" r
    let r2 ← pSp r2
    let _ ← pLit "year" r2
    pure ()
  let slashYear : Option Unit := do
    let r2 ← pLit "/" r
    let r2 ← pSp r2
    let _ ← pLit "year" r2
    pure ()
  let _ ← perYear.orElse (fun _ =>
    ((pLit "annually" r).map (fun _ => ())).orElse (fun _ => slashYear))
  pure cap

/-- Regex 2: `generate\s*(\d+(?:,\d+)*(?:\.\d+)?)\s*kwh` (/i). -/
def enPat2 (l : List Char) : Option (List Char) := do
  let r ← pLit "generate" l
  let r ← pSp r
  let (cap, r) ← matchNumComma r
  let r ← pSp r
  let _ ← pLit "kwh" r
  pure cap

/-- Regex 3: `(\d+(?:,\d+)*(?:\.\d+)?)\s*kwh\s*(?:of\s*)?(?:electricity|energy|power)` (/i). -/
def enPat3 (l : List Char) : Option (List Char) := do
  let (cap, r) ← matchNumComma l
  let r ← pSp r
  let r ← pLit "kwh" r
  let r ← pSp r
  let r := pOptLitSp "of" r
  let _ ← (pLit "electricity" r).orElse (fun _ =>
    (pLit "energy" r).orElse (fun _ => pLit "power" r))
  pure cap

/-- Regex 4: `annual\s*(?:generation|output)\s*(?:of\s*)?(\d+(?:,\d+)*(?:\.\d+)?)\s*kwh` (/i). -/
def enPat4 (l : List Char) : Option (List Char) := do
  let r ← pLit "annual" l
  let r ← pSp r
  let r ← (pLit "generation" r).orElse (fun _ => pLit "output" r)
  let r ← pSp r
  let r := pOptLitSp "of" r
  let (cap, r) ← matchNumComma r
  let r ← pSp r
  let _ ← pLit "kwh" r
  pure cap

/-- Candidate rests of `(?:approx\.?|approximately)?` in regex try order:
"approx." then "approx" (greedy optional dot), then "approximately", then
the empty match. -/
def approxRests (l : List Char) : List (List Char) :=
  ((pLit "approx" l).elim [] (fun r => (pLit "." r).elim [r] (fun r2 => [r2, r])))
  ++ ((pLit "approximately" l).elim [] (fun r => [r]))
  ++ [l]

/-- Regex 5: `(?:approx\.?|approximately)?\s*(\d+(?:,\d+)*)\s*kwh\s*\/\s*year` (/i). -/
def enPat5 (l : List Char) : Option (List Char) :=
  (approxRests l).findSome? (fun r0 => do
    let r ← pSp r0
    let (cap, r) ← matchNumCommaNF r
    let r ← pSp r
    let r ← pLit "kwh" r
    let r ← pSp r
    let r ← pLit "/" r
    let r ← pSp r
    let _ ← pLit "year" r
    pure cap)

/-- Regex 6: `reduce.*?(\d+(?:,\d+)*)\s*kwh` (/i); the lazy gap is the
nearest non-newline-crossing position where the tail matches. -/
def enPat6 (l : List Char) : Option (List Char) := do
  let r ← pLit "reduce" l
  scanNoNewline (fun r1 => do
    let (cap, r2) ← matchNumCommaNF r1
    let r2 ← pSp r2
    let _ ← pLit "kwh" r2
    pure cap) r

/-- Regex 7: `(\d+(?:,\d+)*)\s*kwh[\s\/]*(?:per\s*)?(?:year|yr|annually)` (/i). -/
def enPat7 (l : List Char) : Option (List Char) := do
  let (cap, r) ← matchNumCommaNF l
  let r ← pSp r
  let r ← pLit "kwh" r
  let r := r.dropWhile (fun c => c.isWhitespace || c == '/')
  let r := pOptLitSp "per" r
  let _ ← (pLit "year" r).orElse (fun _ =>
    (pLit "yr" r).orElse (fun _ => pLit "annually" r))
  pure cap

def energyPatterns : List (List Char → Option (List Char)) :=
  [enPat1, enPat2, enPat3, enPat4, enPat5, enPat6, enPat7]

/-- The energy loop: first matching pattern wins; digit-group separator
commas are stripped from the capture before Number(). -/
def extractEnergy (lchars : List Char) : Option ℚ :=
  (energyPatterns.findSome? (fun p => scanFirst p lchars)).map
    (fun cap => jsNumberOfCapture (cap.filter (fun c => !(c == ','))))

/-! ### The extractor -/

/-- aiExtractionService `extractClaimMock(text)`: deterministic regex-based
extraction. Project type is a first-match-wins keyword cascade on the
lowercased text; the numeric and vendor regexes all carry /i, so they are
applied to the lowercased character list (captures consist of digits, dots
and commas and are unaffected by case). -/
def extractClaimMock (text : String) : ExtractedClaim :=
  let lower := jsToLower text
  let lchars := lower.toList
  let project_type : Option String :=
    if containsSub lower "solar" || containsSub lower "photovoltaic"
        || containsSub lower "pv panel" then some "solar"
    else if containsSub lower "ev" || containsSub lower "electric vehicle"
        || containsSub lower "charging station" then some "ev"
    else if containsSub lower "waste" || containsSub lower "recycling"
        || containsSub lower "composting" then some "waste"
    else if containsSub lower "energy efficiency" || containsSub lower "led"
        || containsSub lower "insulation" || containsSub lower "hvac"
        || containsSub lower "vrf" || containsSub lower "variable refrigerant"
        || containsSub lower "lighting system" then some "energy_efficiency"
    else if containsSub lower "water" || containsSub lower "rainwater"
        || containsSub lower "sewage" || containsSub lower "irrigation" then some "water"
    else none
  { project_type := project_type,
    capacity_kw := extractCapacity lchars,
    vendor := extractVendor lchars,
    certifications := extractCerts lchars,
    claimed_impact :=
      { co2_saved_tonnes_per_year := extractCO2 lchars,
        energy_generated_kwh_per_year := extractEnergy lchars } }

/-- The empty claim: the valid result for input text containing no
recognisable data. -/
def emptyClaim : ExtractedClaim :=
  { project_type := none, capacity_kw := none, vendor := none,
    certifications := [],
    claimed_impact :=
      { co2_saved_tonnes_per_year := none, energy_generated_kwh_per_year := none } }

/-! ## Concrete inputs used by the claim theorems -/

/-- End-to-end scenario 1 text (spec §8). -/
def scenario1Text : String :=
  "Installing 50kW solar panels from Tata Power Solar to generate 75,000 kWh annually and save 40 tonnes of CO2 per year"

/-- The claim extracted in scenario 1. -/
def scenario1Claim : ExtractedClaim :=
  { project_type := some "solar", capacity_kw := some 50,
    vendor := some "Tata Power Solar", certifications := [],
    claimed_impact :=
      { co2_saved_tonnes_per_year := some 40,
        energy_generated_kwh_per_year := some 75000 } }

/-- Minimum-path loan of scenario 3: unrecognised greenObjective, zero
turnover and savings, a location that matches no state list, no
coordinates. -/
def pdMinimumPath : ProjectData :=
  { greenObjective := some "misc", annualTurnover := some "0",
    yearsInBusiness := none, estimatedSavings := some "0",
    projectLocation := some "Atlantis", loanAmount := some "500000",
    locationCoordinates := none }

/-- A loan whose loanAmount field is absent but whose savings are 50000:
exposes the loanAmount fallback of the parser. -/
def pdMissingLoanAmount : ProjectData :=
  { greenObjective := some "misc", annualTurnover := some "0",
    yearsInBusiness := none, estimatedSavings := some "50000",
    projectLocation := some "Atlantis", loanAmount := none,
    locationCoordinates := none }

/-- A fully-populated claim with two certifications, used to witness the
certification-bonus cap. -/
def cappedCertClaim : ExtractedClaim :=
  { project_type := some "solar", capacity_kw := some 50,
    vendor := some "Tata Power Solar",
    certifications := ["ISO 14001", "ISO 9001"],
    claimed_impact :=
      { co2_saved_tonnes_per_year := some 40,
        energy_generated_kwh_per_year := some 75000 } }

/-- Severity order of climate risk levels: high > medium > low. -/
def sevRank (level : String) : ℕ :=
  if level == "high" then 2 else if level == "medium" then 1 else 0

/-! ## Helper lemmas -/

theorem clamp100_nonneg (x : ℤ) : 0 ≤ clamp100 x :=
  le_min (by norm_num) (le_max_left 0 x)

theorem clamp100_le_100 (x : ℤ) : clamp100 x ≤ 100 := min_le_left _ _

theorem round_mono_rat {a b : ℚ} (h : a ≤ b) : round a ≤ round b := by
  rw [round_eq, round_eq]
  exact Int.floor_le_floor (by linarith)

theorem round2_mono {a b : ℚ} (h : a ≤ b) : round2 a ≤ round2 b := by
  unfold round2
  have h1 : round (a * 100) ≤ round (b * 100) := round_mono_rat (by linarith)
  have h2 : ((round (a * 100) : ℤ) : ℚ) ≤ ((round (b * 100) : ℤ) : ℚ) := by exact_mod_cast h1
  linarith

theorem round2_bounds {q : ℚ} (h0 : 0 ≤ q) (h1 : q ≤ 1) :
    0 ≤ round2 q ∧ round2 q ≤ 1 := by
  unfold round2
  have hlow : (0 : ℤ) ≤ round (q * 100) := by
    have := round_mono_rat (by linarith : (0 : ℚ) ≤ q * 100)
    simpa using this
  have hhigh : round (q * 100) ≤ 100 := by
    have := round_mono_rat (by linarith : q * 100 ≤ (100 : ℚ))
    have h100 : round ((100 : ℚ)) = 100 := by
      rw [round_eq]
      norm_num
    rw [h100] at this
    exact this
  constructor
  · positivity
  · have : ((round (q * 100) : ℤ) : ℚ) ≤ 100 := by exact_mod_cast hhigh
    linarith

theorem clamp01_nonneg (q : ℚ) : 0 ≤ clamp01 q := le_max_left 0 _

theorem clamp01_le_one (q : ℚ) : clamp01 q ≤ 1 := max_le (by norm_num) (min_le_left 1 q)

theorem clamp01_mono {q r : ℚ} (h : q ≤ r) : clamp01 q ≤ clamp01 r :=
  max_le_max le_rfl (min_le_min le_rfl h)

theorem listInfixOf_append_of_right {n : List Char} (s : List Char) {t : List Char}
    (h : listInfixOf n t = true) : listInfixOf n (s ++ t) = true := by
  induction s with
  | nil => simpa using h
  | cons c cs ih => simp [listInfixOf, ih]

theorem listInfixOf_of_isPrefixOf {n l : List Char} (h : n.isPrefixOf l = true) :
    listInfixOf n l = true := by
  cases l with
  | nil => cases n <;> simp_all [listInfixOf, List.isPrefixOf]
  | cons c t => simp [listInfixOf, h]

theorem toList_append (a b : String) : (a ++ b).toList = a.toList ++ b.toList := by
  simp [String.toList]

/-- The confidence score in closed form: the sequential source computation
equals the spec's formula, clamped and rounded. -/
theorem confidence_closed (e : ExtractedClaim) :
    (calculateExtractionConfidence e).confidence = round2 (clamp01 (specConfidenceFormula e)) := by
  unfold calculateExtractionConfidence specConfidenceFormula
  by_cases h1 : truthyStr e.project_type <;>
    by_cases h2 : truthyNum e.capacity_kw <;>
      by_cases h3 : truthyStr e.vendor <;>
        cases hco : e.claimed_impact.co2_saved_tonnes_per_year <;>
          cases hen : e.claimed_impact.energy_generated_kwh_per_year <;>
            cases hc : e.certifications <;>
              simp_all <;> norm_num

theorem truthyStr_none : truthyStr none = false := rfl

theorem truthyNum_none : truthyNum none = false := rfl

theorem lowScoreMsg_ne_greenwashing (s : ℤ) : lowScoreMsg s ≠ greenwashingMsg := by
  intro h
  have h2 := congrArg (fun str => str.toList.take 6) h
  simp only [lowScoreMsg, greenwashingMsg, toList_append] at h2
  rw [List.append_assoc, List.take_append_of_le_length (by decide)] at h2
  exact absurd h2 (by decide)

theorem takeWhile_isDigit_of_head_not_digit {l : List Char}
    (h : ∀ c ∈ l, c = '.') : l.takeWhile Char.isDigit = [] := by
  cases l with
  | nil => rfl
  | cons c t =>
      have hc : c = '.' := h c (by simp)
      subst hc
      simp [List.takeWhile_cons]

theorem jsParseFloat_all_dots {l : List Char} (h : ∀ c ∈ l, c = '.') :
    jsParseFloat l = none := by
  cases l with
  | nil => rfl
  | cons c t =>
      have hc : c = '.' := h c (by simp)
      subst hc
      have hip : ('.' :: t).takeWhile Char.isDigit = [] := by
        simp [List.takeWhile_cons]
      have hdrop : ('.' :: t).dropWhile Char.isDigit = '.' :: t := by
        simp [List.dropWhile_cons]
      have hfp : t.takeWhile Char.isDigit = [] :=
        takeWhile_isDigit_of_head_not_digit (fun c hc => h c (by simp [hc]))
      unfold jsParseFloat
      rw [hip, hdrop]
      simp [hfp]

theorem parseNum_of_no_digits {s : String}
    (h : s.toList.all (fun c => !c.isDigit) = true) : parseNum (some s) = 0 := by
  have hdots : ∀ c ∈ (stripNonNumeric s).toList, c = '.' := by
    intro c hc
    have hmem : c ∈ s.toList.filter (fun c => c.isDigit || c == '.') := hc
    have h2 := List.mem_filter.mp hmem
    have hnd : ¬(c.isDigit = true) := by
      have := List.all_eq_true.mp h c h2.1
      simpa using this
    have := h2.2
    rcases Bool.or_eq_true_iff.mp this with hdig | hdot
    · exact absurd hdig hnd
    · exact eq_of_beq hdot
  simp only [parseNum]
  rw [jsParseFloat_all_dots hdots]
  rfl

theorem runGreenwashingCheck_passed (pd : ProjectData) :
    (runGreenwashingCheck pd).passed = true := by
  simp only [runGreenwashingCheck, greenwashingChecks, List.all_cons, List.all_nil,
    List.foldl_cons, List.foldl_nil, List.length_cons, List.length_nil,
    Bool.and_eq_true, decide_eq_true_eq]
  norm_num

theorem guarded_filterMap_sublist {α β : Type} (f : α → β) (g : α → Option Unit) :
    ∀ l : List α, (l.filterMap (fun a => (g a).map (fun _ => f a))).Sublist (l.map f) := by
  intro l
  induction l with
  | nil => simp
  | cons a t ih =>
      cases hg : g a <;> simp only [List.filterMap_cons, hg, Option.map_none, Option.map_some,
        List.map_cons]
      · exact ih.cons _
      · exact ih.cons₂ _

/-! ## Claim theorems -/

/-- Claim C1: for a resolved loan the orchestrator rejects with the
claims-unverifiable reason whenever the greenwashing check fails
(regardless of the score), otherwise rejects with a reason carrying the
numeric score and the threshold 50 whenever the score is below 50, and
otherwise approves. -/
theorem C1_orchestrator_decision (passed : Bool) (score : ℤ) :
    (passed = false →
      verificationDecision passed score =
        { status := "rejected", rejectionReason := some greenwashingMsg } ∧
      containsSub greenwashingMsg "could not be verified" = true) ∧
    (passed = true → score < 50 →
      verificationDecision passed score =
        { status := "rejected", rejectionReason := some (lowScoreMsg score) } ∧
      containsSub (lowScoreMsg score) (toString score) = true ∧
      containsSub (lowScoreMsg score) "50" = true) ∧
    (passed = true → 50 ≤ score →
      verificationDecision passed score = { status := "approved", rejectionReason := none }) := by
  refine ⟨?_, ?_, ?_⟩
  · intro hp
    subst hp
    exact ⟨rfl, by decide⟩
  · intro hp hs
    subst hp
    refine ⟨by simp [verificationDecision, hs], ?_, ?_⟩
    · unfold containsSub lowScoreMsg
      rw [toList_append, toList_append, List.append_assoc]
      exact listInfixOf_append_of_right _
        (listInfixOf_of_isPrefixOf (List.isPrefixOf_iff_prefix.mpr (List.prefix_append _ _)))
    · unfold containsSub lowScoreMsg
      rw [toList_append, toList_append]
      exact listInfixOf_append_of_right _ (by decide)
  · intro hp hs
    subst hp
    simp [verificationDecision, show ¬(score < 50) from not_lt.mpr hs]

/-- Witness for C1: a failing greenwashing check with greenScore 95 still
yields a rejection with the claims-unverifiable reason. -/
theorem C1_orchestrator_decision_witness :
    verificationDecision false 95 =
      { status := "rejected", rejectionReason := some greenwashingMsg } :=
  ((C1_orchestrator_decision false 95).1 rfl).1

/-- Claim C2: for every input record the green score is an integer (the
embedding's result type is ℤ because every accumulated sub-score is an
integer and Math.round is the identity on integers) in the range [0, 100],
the sustainability class is derived from the final score by the exact
thresholds of `classifyScore`, and the boundary scores classify as stated:
79 medium, 80 high, 49 low, 50 medium. -/
theorem C2_green_score_range_and_classification (pd : ProjectData) :
    0 ≤ (calculateGreenScore pd).greenScore ∧
    (calculateGreenScore pd).greenScore ≤ 100 ∧
    (calculateGreenScore pd).sustainabilityClass
      = classifyScore (calculateGreenScore pd).greenScore ∧
    classifyScore 79 = "medium" ∧ classifyScore 80 = "high" ∧
    classifyScore 49 = "low" ∧ classifyScore 50 = "medium" := by
  refine ⟨clamp100_nonneg _, clamp100_le_100 _, rfl, by decide, by decide, by decide, by decide⟩

/-- Claim C4: the greenwashing check is constant — it passes with
confidence 91, an empty flags list and the same four verified checks for
every input — and consequently the orchestrator's greenwashing-failure
branch is never taken: the composed route decision always equals the
decision at passed = true, whose rejection reason is never the
greenwashing message. -/
theorem C4_greenwashing_check_constant (pd : ProjectData) :
    (runGreenwashingCheck pd).passed = true ∧
    (runGreenwashingCheck pd).confidenceScore = 91 ∧
    (runGreenwashingCheck pd).flags = [] ∧
    (runGreenwashingCheck pd).checks = greenwashingChecks ∧
    greenwashingChecks.all (fun c => c.status == "verified") = true ∧
    verifyLoan pd = verificationDecision true (calculateGreenScore pd).greenScore ∧
    ∀ s : ℤ, (verificationDecision true s).rejectionReason ≠ some greenwashingMsg := by
  have hp : (runGreenwashingCheck pd).passed = true := runGreenwashingCheck_passed pd
  refine ⟨hp, ?_, rfl, rfl, by decide, ?_, ?_⟩
  · show round ((greenwashingChecks.foldl (fun sum c => sum + (c.confidence : ℚ)) 0)
        / ((greenwashingChecks.length : ℚ))) = 91
    have havg : (greenwashingChecks.foldl (fun sum c => sum + (c.confidence : ℚ)) 0)
        / ((greenwashingChecks.length : ℚ)) = 365 / 4 := by
      simp [greenwashingChecks]
      norm_num
    rw [havg, round_eq]
    norm_num
  · simp [verifyLoan, hp]
  · intro s
    unfold verificationDecision
    by_cases hlt : s < 50
    · simp [hlt]
      exact fun h => lowScoreMsg_ne_greenwashing s h
    · simp [hlt]

/-- Claim C3: the Confidence Scorer computes exactly the spec's formula —
1.0 minus the fixed per-field penalties (project type 0.20, capacity 0.25,
vendor 0.20, both impact metrics missing 0.15), plus 0.05 per certification
capped at 0.10, clamped to [0,1] and rounded to 2 decimals — and emits one
signal entry per missing critical field, in source order. -/
theorem C3_confidence_computation (e : ExtractedClaim) :
    (calculateExtractionConfidence e).confidence
      = round2 (clamp01 (specConfidenceFormula e)) ∧
    0 ≤ (calculateExtractionConfidence e).confidence ∧
    (calculateExtractionConfidence e).confidence ≤ 1 ∧
    ((calculateExtractionConfidence e).signals.map (fun s => s.field))
      = ((if truthyStr e.project_type then [] else ["project_type"])
        ++ (if truthyNum e.capacity_kw then [] else ["capacity_kw"])
        ++ (if truthyStr e.vendor then [] else ["vendor"])
        ++ (if e.claimed_impact.co2_saved_tonnes_per_year.isSome
              || e.claimed_impact.energy_generated_kwh_per_year.isSome
            then [] else ["claimed_impact"])) := by
  refine ⟨confidence_closed e, ?_, ?_, ?_⟩
  · rw [confidence_closed e]
    exact (round2_bounds (clamp01_nonneg _) (clamp01_le_one _)).1
  · rw [confidence_closed e]
    exact (round2_bounds (clamp01_nonneg _) (clamp01_le_one _)).2
  · unfold calculateExtractionConfidence
    by_cases h1 : truthyStr e.project_type <;>
      by_cases h2 : truthyNum e.capacity_kw <;>
        by_cases h3 : truthyStr e.vendor <;>
          cases hco : e.claimed_impact.co2_saved_tonnes_per_year <;>
            cases hen : e.claimed_impact.energy_generated_kwh_per_year <;>
              simp_all

/-- Claim C9: removing any critical field (or emptying both impact
metrics) never increases the confidence, appending a certification never
decreases it, the certification bonus stops growing once two
certifications are present, and the confidence always lies in [0,1]. -/
theorem C9_confidence_monotonic (e : ExtractedClaim) (cert : String) :
    (calculateExtractionConfidence { e with project_type := none }).confidence
      ≤ (calculateExtractionConfidence e).confidence ∧
    (calculateExtractionConfidence { e with capacity_kw := none }).confidence
      ≤ (calculateExtractionConfidence e).confidence ∧
    (calculateExtractionConfidence { e with vendor := none }).confidence
      ≤ (calculateExtractionConfidence e).confidence ∧
    (calculateExtractionConfidence { e with claimed_impact :=
        { co2_saved_tonnes_per_year := none, energy_generated_kwh_per_year := none } }).confidence
      ≤ (calculateExtractionConfidence e).confidence ∧
    (calculateExtractionConfidence e).confidence
      ≤ (calculateExtractionConfidence
          { e with certifications := e.certifications ++ [cert] }).confidence ∧
    (2 ≤ e.certifications.length →
      (calculateExtractionConfidence
          { e with certifications := e.certifications ++ [cert] }).confidence
        = (calculateExtractionConfidence e).confidence) ∧
    0 ≤ (calculateExtractionConfidence e).confidence ∧
    (calculateExtractionConfidence e).confidence ≤ 1 := by
  have base_mono : ∀ {a b : ℚ}, a ≤ b → round2 (clamp01 a) ≤ round2 (clamp01 b) :=
    fun h => round2_mono (clamp01_mono h)
  simp only [confidence_closed]
  refine ⟨?_, ?_, ?_, ?_, ?_, ?_, ?_, ?_⟩
  · apply base_mono
    unfold specConfidenceFormula
    simp only [truthyStr_none]
    norm_num
    split_ifs <;> linarith
  · apply base_mono
    unfold specConfidenceFormula
    simp only [truthyNum_none]
    norm_num
    split_ifs <;> linarith
  · apply base_mono
    unfold specConfidenceFormula
    simp only [truthyStr_none]
    norm_num
    split_ifs <;> linarith
  · apply base_mono
    unfold specConfidenceFormula
    simp only [Option.isSome_none, Bool.or_self]
    norm_num
    split_ifs <;> linarith
  · apply base_mono
    unfold specConfidenceFormula
    simp only [List.length_append, List.length_cons, List.length_nil]
    have hmin : min ((e.certifications.length : ℚ) * 0.05) 0.1
        ≤ min (((e.certifications.length + 1 : ℕ) : ℚ) * 0.05) 0.1 := by
      refine min_le_min ?_ le_rfl
      push_cast
      linarith
    linarith
  · intro hlen
    have hcap : ∀ n : ℕ, 2 ≤ n → min ((n : ℚ) * 0.05) 0.1 = 0.1 := by
      intro n hn
      rw [min_eq_right]
      have : (2 : ℚ) ≤ (n : ℚ) := by exact_mod_cast hn
      nlinarith
    have h1 := hcap e.certifications.length hlen
    have h2 := hcap (e.certifications.length + 1) (by omega)
    have hbase : specConfidenceFormula { e with certifications := e.certifications ++ [cert] }
        = specConfidenceFormula e := by
      unfold specConfidenceFormula
      simp only [List.length_append, List.length_cons, List.length_nil]
      rw [h1]
      rw [show e.certifications.length + (1 : ℕ) = e.certifications.length + 1 from rfl] at h2 ⊢
      push_cast at h2 ⊢
      rw [h2]
    rw [hbase]
  · exact (round2_bounds (clamp01_nonneg _) (clamp01_le_one _)).1
  · exact (round2_bounds (clamp01_nonneg _) (clamp01_le_one _)).2

/-- Witness for C9: on a fully-populated claim that already has two
certifications, appending a third certification leaves the confidence
unchanged (the bonus is capped). -/
theorem C9_confidence_monotonic_witness :
    2 ≤ cappedCertClaim.certifications.length ∧
    (calculateExtractionConfidence
        { cappedCertClaim with certifications := cappedCertClaim.certifications ++ ["LEED"] }).confidence
      = (calculateExtractionConfidence cappedCertClaim).confidence :=
  ⟨by decide, (C9_confidence_monotonic cappedCertClaim "LEED").2.2.2.2.2.1 (by decide)⟩

/-- Claim C7: the Text Extractor is a total function of its input — in this
embedding it is a Lean function, so it terminates without error on every
string — its project type is always one of the five known categories or
unknown, its certification list is always a sublist of the fixed label
table, and on the empty string it returns exactly the empty claim. -/
theorem C7_extractor_totality (text : String) :
    ((extractClaimMock text).project_type
      ∈ ([none, some "solar", some "ev", some "waste", some "energy_efficiency", some "water"] :
          List (Option String))) ∧
    ((extractClaimMock text).certifications).Sublist (certPatterns.map (fun pr => pr.2)) ∧
    extractClaimMock "" = emptyClaim := by
  refine ⟨?_, ?_, by decide⟩
  · unfold extractClaimMock
    dsimp only
    split_ifs <;> simp
  · show (extractCerts (jsToLower text).toList).Sublist (certPatterns.map (fun pr => pr.2))
    unfold extractCerts
    exact guarded_filterMap_sublist (fun pr => pr.2)
      (fun pr => scanFirst pr.1 (jsToLower text).toList) certPatterns

/-- Claim C8: extracting from the scenario-1 text yields project type
solar, capacity 50 kW, vendor Tata Power Solar, CO2 savings 40 tonnes/year
and energy generation 75000 kWh/year (comma separator stripped), and the
Confidence Scorer gives this claim a confidence of at least 0.8. -/
theorem C8_scenario1_extraction :
    extractClaimMock scenario1Text = scenario1Claim ∧
    (calculateExtractionConfidence (extractClaimMock scenario1Text)).confidence ≥ 0.8 := by
  have hx : extractClaimMock scenario1Text = scenario1Claim := by decide
  refine ⟨hx, ?_⟩
  rw [hx, confidence_closed]
  have hbase : specConfidenceFormula scenario1Claim = 1 := by
    unfold specConfidenceFormula scenario1Claim
    norm_num [truthyStr, truthyNum]
    split_ifs <;> simp_all
  rw [hbase]
  have hclamp : clamp01 1 = 1 := by
    unfold clamp01
    norm_num
  rw [hclamp]
  unfold round2
  rw [round_eq]
  norm_num

/-- Claim C5 counterexample: a missing loanAmount is not treated as 0 — the
engine replaces the parsed 0 with 100000 (`parseNum(loanAmount) || 100000`),
and on a loan with savings 50000 and no loanAmount this yields the
excellent-ROI branch (ratio 0.5 against the 100000 fallback), which would
be impossible if the missing loanAmount were 0. -/
theorem C5_counterexample :
    jsOrRat (parseNum none) 100000 = 100000 ∧
    jsOrRat (parseNum none) 100000 ≠ 0 ∧
    (calculateGreenScore pdMissingLoanAmount).reasoning.lookup "roi_potential"
      = some "+15 pts (Excellent ROI > 50%)" := by
  refine ⟨by decide, by decide, ?_⟩
  have h1 : parseNum pdMissingLoanAmount.annualTurnover = 0 := by decide
  have h2 : parseNum pdMissingLoanAmount.estimatedSavings = 50000 := by decide
  have h3 : jsOrRat (parseNum pdMissingLoanAmount.loanAmount) 100000 = 100000 := by decide
  have h4 : parseNum pdMissingLoanAmount.yearsInBusiness = 0 := by decide
  have hge : ((50000 : ℚ) / 100000 ≥ 0.5) := by norm_num
  simp only [calculateGreenScore, h1, h2, h3, h4, if_pos hge]
  decide

/-- Claim C5 amended: in the Green Score Engine every numeric string field
is parsed by stripping non-digit, non-dot characters before conversion,
and a missing or unparseable annualTurnover, estimatedSavings or
yearsInBusiness defaults to 0 — but a missing, unparseable or zero
loanAmount is replaced by the fallback 100000 (to avoid dividing by
zero), not by 0. -/
theorem C5_amended_parse_defaults (s : String)
    (h : s.toList.all (fun c => !c.isDigit) = true) :
    parseNum (some s) = 0 ∧
    parseNum none = 0 ∧
    jsOrRat (parseNum (some s)) 100000 = 100000 ∧
    jsOrRat (parseNum none) 100000 = 100000 := by
  have hz : parseNum (some s) = 0 := parseNum_of_no_digits h
  refine ⟨hz, by decide, ?_, by decide⟩
  rw [hz]
  decide

/-- Witness for the amended C5 at the unparseable string "abc". -/
theorem C5_amended_parse_defaults_witness :
    parseNum (some "abc") = 0 ∧ jsOrRat (parseNum (some "abc")) 100000 = 100000 :=
  ⟨(C5_amended_parse_defaults "abc" (by decide)).1,
   (C5_amended_parse_defaults "abc" (by decide)).2.2.1⟩

/-- Claim C6 counterexample: the minimum-path loan (unrecognised category,
zero turnover and savings, unknown location) scores 40, not approximately
30 — geography contributes 20 points (10 general applicability + 10 low
climate risk), not about 10. -/
theorem C6_counterexample :
    (calculateGreenScore pdMinimumPath).greenScore = 40 ∧
    (calculateGreenScore pdMinimumPath).reasoning.lookup "geo_suitability"
      = some "+10 pts (General Applicability)" ∧
    (calculateGreenScore pdMinimumPath).reasoning.lookup "climate_resilience"
      = some "+10 pts (Low Climate Risk)" ∧
    (40 : ℤ) ≠ 30 := by
  have h1 : parseNum pdMinimumPath.annualTurnover = 0 := by decide
  have h2 : parseNum pdMinimumPath.estimatedSavings = 0 := by decide
  have h3 : jsOrRat (parseNum pdMinimumPath.loanAmount) 100000 = 500000 := by decide
  have h4 : parseNum pdMinimumPath.yearsInBusiness = 0 := by decide
  have hr1 : ¬((0 : ℚ) / 500000 ≥ 0.5) := by norm_num
  have hr2 : ¬((0 : ℚ) / 500000 ≥ 0.25) := by norm_num
  have hr3 : ¬((0 : ℚ) / 500000 ≥ 0.1) := by norm_num
  refine ⟨?_, ?_, ?_, by decide⟩ <;>
    · simp only [calculateGreenScore, h1, h2, h3, h4, if_neg hr1, if_neg hr2, if_neg hr3]
      decide

/-- Claim C6 amended: the minimum-path loan scores exactly 40 (20 category
+ 0 financial + 20 geography + 0 data integrity), is classified low, and
is rejected for scoring below 50 even though the greenwashing check
passes. -/
theorem C6_amended_minimum_path :
    (calculateGreenScore pdMinimumPath).greenScore = 40 ∧
    (calculateGreenScore pdMinimumPath).sustainabilityClass = "low" ∧
    (runGreenwashingCheck pdMinimumPath).passed = true ∧
    verifyLoan pdMinimumPath =
      { status := "rejected",
        rejectionReason := some "Green Score too low (40/100). Minimum 50 required." } := by
  have h1 : parseNum pdMinimumPath.annualTurnover = 0 := by decide
  have h2 : parseNum pdMinimumPath.estimatedSavings = 0 := by decide
  have h3 : jsOrRat (parseNum pdMinimumPath.loanAmount) 100000 = 500000 := by decide
  have h4 : parseNum pdMinimumPath.yearsInBusiness = 0 := by decide
  have hr1 : ¬((0 : ℚ) / 500000 ≥ 0.5) := by norm_num
  have hr2 : ¬((0 : ℚ) / 500000 ≥ 0.25) := by norm_num
  have hr3 : ¬((0 : ℚ) / 500000 ≥ 0.1) := by norm_num
  have hscore : (calculateGreenScore pdMinimumPath).greenScore = 40 := by
    simp only [calculateGreenScore, h1, h2, h3, h4, if_neg hr1, if_neg hr2, if_neg hr3]
    decide
  refine ⟨hscore, ?_, runGreenwashingCheck_passed _, ?_⟩
  · simp only [calculateGreenScore, h1, h2, h3, h4, if_neg hr1, if_neg hr2, if_neg hr3]
    decide
  · show verificationDecision (runGreenwashingCheck pdMinimumPath).passed
        (calculateGreenScore pdMinimumPath).greenScore =
      { status := "rejected",
        rejectionReason := some "Green Score too low (40/100). Minimum 50 required." }
    rw [runGreenwashingCheck_passed, hscore]
    decide

/-- Claim C10: the climate risk assessment appends exactly one risk entry
per matching regional category (drought, flood, heatwave, in that order),
and the overall level is the maximum severity among the triggered risks
under high > medium > low, defaulting to low when none trigger. -/
theorem C10_climate_risk_assessment (loc : ClimateLocation) :
    ((assessClimateRisk loc).risks.length
      = ((if regionHit (climateLocationStr loc) droughtStates then 1 else 0)
        + (if regionHit (climateLocationStr loc) floodRegions then 1 else 0)
        + (if regionHit (climateLocationStr loc) heatRegions then 1 else 0))) ∧
    (sevRank (assessClimateRisk loc).level
      = ((assessClimateRisk loc).risks.map (fun r => sevRank r.level)).foldr max 0) ∧
    ((assessClimateRisk loc).level ∈ (["low", "medium", "high"] : List String)) := by
  simp only [assessClimateRisk]
  cases hd : regionHit (climateLocationStr loc) droughtStates <;>
    cases hf : regionHit (climateLocationStr loc) floodRegions <;>
      cases hh : regionHit (climateLocationStr loc) heatRegions <;>
        simp [droughtEntry, floodEntry, heatEntry, sevRank]

/-- Witness for C4 at a concrete loan: the check passes and the composed
decision is driven only by the green score. -/
theorem C4_greenwashing_check_constant_witness :
    (runGreenwashingCheck pdMinimumPath).passed = true ∧
    (verificationDecision true 95).rejectionReason ≠ some greenwashingMsg :=
  ⟨(C4_greenwashing_check_constant pdMinimumPath).1,
   (C4_greenwashing_check_constant pdMinimumPath).2.2.2.2.2.2 95⟩
